import Mathlib

/-!
Shallow embedding of the vessel gateway (a FastAPI front-end for the podman
engine) and proofs about its request-translation and fault-normalization
behavior.

Conventions of the embedding:
- Engine calls are modelled by passing their result as an explicit
  `Except EngineExc _` argument: `.ok` is the value the engine returned,
  `.error e` is the Python exception the client library raised.
- Python byte strings are modelled by the text they decode to (all log and
  output handling in the source decodes with utf-8 before use).
- The text carried by `str(e)` for an exception `e` is modelled by the
  exception constructor field `msg`.
- A route handler is a total Lean function from its request fields and the
  engine results it consumes to `Except EngineExc (RouteOut _)`: a `.ok`
  value is an HTTP response the handler produced (success or a classified
  HTTPException), while `.error e` means the handler let the exception
  escape to the transport unhandled.
-/

namespace Vessel

/-- Exceptions of the podman client library as the routers observe them.
In podman.errors the class hierarchy is
ImageNotFound < NotFound < APIError < Exception and
ContainerError < Exception (ContainerError is not an APIError);
each handler clause below models its Python except-chain with that
hierarchy applied, first matching clause wins.  `msg` models `str(e)`;
`statusCode` and `explanation` model the fields APIError carries from the
engine response. -/
inductive EngineExc where
  | notFound (msg : String)
  | imageNotFound (msg : String)
  | apiError (msg : String) (statusCode : Option Nat) (explanation : Option String)
  | containerError (msg : String) (exitStatus : Int)
  | otherExc (msg : String)
deriving DecidableEq, Repr

/-- True exactly for the exceptions of the APIError hierarchy
(APIError, NotFound, ImageNotFound). -/
def EngineExc.isApiFault : EngineExc → Bool
  | .notFound _ => true
  | .imageNotFound _ => true
  | .apiError _ _ _ => true
  | .containerError _ _ => false
  | .otherExc _ => false

/-- Outcome of one route handler invocation: a success body with its HTTP
status, or an HTTPException the handler raised (status and detail). -/
inductive RouteOut (β : Type) where
  | ok (status : Nat) (body : β)
  | httpError (status : Nat) (detail : Option String)
deriving DecidableEq, Repr

/-- HTTP status of a handler outcome. -/
def RouteOut.statusOf : RouteOut β → Nat
  | .ok s _ => s
  | .httpError s _ => s

/-- Detail text of a handler outcome when it is an HTTPException. -/
def RouteOut.errDetail : RouteOut β → Option String
  | .ok _ _ => none
  | .httpError _ d => d

instance [DecidableEq ε] [DecidableEq α] : DecidableEq (Except ε α)
  | .ok a, .ok b =>
      if h : a = b then .isTrue (by rw [h])
      else .isFalse (by intro he; cases he; exact h rfl)
  | .error a, .error b =>
      if h : a = b then .isTrue (by rw [h])
      else .isFalse (by intro he; cases he; exact h rfl)
  | .ok _, .error _ => .isFalse (by intro he; cases he)
  | .error _, .ok _ => .isFalse (by intro he; cases he)

/-- Status of a route result that did not escape; `none` when the
exception propagated to the transport. -/
def handledStatus : Except EngineExc (RouteOut β) → Option Nat
  | .error _ => none
  | .ok r => some r.statusOf

/-- Detail of a route result that ended in a handled HTTPException. -/
def handledDetail : Except EngineExc (RouteOut β) → Option String
  | .error _ => none
  | .ok r => r.errDetail

/-- True when the handler produced an HTTP response (success or a
classified HTTPException) rather than letting the exception escape. -/
def isClassified : Except EngineExc (RouteOut β) → Bool
  | .ok _ => true
  | .error _ => false

/-- Sequencing of two engine calls inside one try-block: the second call
happens only when the first returned normally, and a raised exception
short-circuits to the except clauses. -/
def seqTry (a : Except EngineExc γ) (b : Except EngineExc δ) : Except EngineExc δ :=
  match a with
  | .ok _ => b
  | .error e => .error e

/-! ## Log payloads (app/routers/logs.py) -/

/-- One element of an iterable log payload: a byte chunk (modelled by its
decoded text) or a text chunk. -/
inductive StrOrBytes where
  | bytes (b : String)
  | str (s : String)
deriving DecidableEq, Repr

/-- Text a chunk contributes: bytes are decoded with utf-8, text parts go
through `str(part)` which is the identity on text.  (Source: the loop body
of get_logs_json for the iterable case.) -/
def StrOrBytes.content : StrOrBytes → String
  | .bytes b => b
  | .str s => s

/-- Python str.splitlines restricted to the terminators "\n", "\r\n" and
"\r": splits on each terminator and drops a trailing empty line. -/
def pySplitlinesAux : List Char → List Char → List String
  | [], acc => if acc.isEmpty then [] else [String.mk acc.reverse]
  | '\r' :: '\n' :: rest, acc => String.mk acc.reverse :: pySplitlinesAux rest []
  | '\r' :: rest, acc => String.mk acc.reverse :: pySplitlinesAux rest []
  | '\n' :: rest, acc => String.mk acc.reverse :: pySplitlinesAux rest []
  | c :: rest, acc => pySplitlinesAux rest (c :: acc)

/-- Python str.splitlines on a decoded log payload. -/
def pySplitlines (s : String) : List String :=
  pySplitlinesAux s.data []

/-- Shapes the logs call can return in batch mode (stream=False):
a byte block, a text block, an iterable of chunks, or anything else
(rendered through `str`). -/
inductive LogsPayload where
  | bytes (b : String)
  | str (s : String)
  | iter (parts : List StrOrBytes)
  | otherVal (s : String)
deriving DecidableEq, Repr

/-- The iterable branch of get_logs_json: starts from the lines already
collected and for each part extends them with the lines of that part
(`lines.extend(part.splitlines())`), one part at a time. -/
def collectIterLines : List StrOrBytes → List String → List String
  | [], lines => lines
  | part :: rest, lines => collectIterLines rest (lines ++ pySplitlines part.content)

/-- Line list built by the body of get_logs_json from a batch logs payload. -/
def getLogsLines : LogsPayload → List String
  | .bytes b => pySplitlines b
  | .str s => pySplitlines s
  | .iter parts => collectIterLines parts []
  | .otherVal s => [s]

/-- Route GET /logs/(container_id) (get_logs_json): fetches the container,
fetches its logs in batch mode and splits them into lines; NotFound maps to
404 naming the container, APIError to a fixed 500 message, anything else to
a fixed generic 500. -/
def get_logs_json (container_id : String) (getRes : Except EngineExc Unit)
    (logsRes : Except EngineExc LogsPayload) :
    Except EngineExc (RouteOut (List String)) :=
  match seqTry getRes logsRes with
  | .ok payload => .ok (.ok 200 (getLogsLines payload))
  | .error (.notFound _) =>
      .ok (.httpError 404 (some ("Container " ++ container_id ++ " not found")))
  | .error (.imageNotFound _) =>
      .ok (.httpError 404 (some ("Container " ++ container_id ++ " not found")))
  | .error (.apiError _ _ _) =>
      .ok (.httpError 500 (some "Error fetching logs"))
  | .error (.containerError _ _) =>
      .ok (.httpError 500 (some "Unexpected error"))
  | .error (.otherExc _) =>
      .ok (.httpError 500 (some "Unexpected error"))

/-- The diagnostic chunk iter_logs appends when the engine iterator raises
mid-stream. -/
def streamErrChunk : String :=
  "\n[ERROR] Stream interrupted.\n"

/-- One chunk as iter_logs yields it: bytes are forwarded, text is encoded
(both modelled by the decoded text). -/
def StrOrBytes.encoded : StrOrBytes → String
  | .bytes b => b
  | .str s => s

/-- The generator iter_logs of stream_logs, run against an engine iterator
that yields `chunks` and then raises when `interrupted` is true: each chunk
is forwarded, and the except-clause around the loop turns the fault into
one final diagnostic chunk instead of letting it escape. -/
def iterLogsRun : List StrOrBytes → Bool → List String
  | [], false => []
  | [], true => [streamErrChunk]
  | c :: rest, interrupted => c.encoded :: iterLogsRun rest interrupted

/-- Engine-side log stream for stream mode: the chunks the iterator yields
before it either finishes or raises. -/
structure StreamSrc where
  chunks : List StrOrBytes
  interrupted : Bool
deriving DecidableEq, Repr

/-- Route GET /logs/(container_id)/stream (stream_logs): on success the
streamed byte sequence is the one iter_logs produces; faults raised before
the response starts are classified exactly like the except chain of the
source (404 naming the container, fixed 500 messages). -/
def stream_logs (container_id : String) (getRes : Except EngineExc Unit)
    (logsRes : Except EngineExc StreamSrc) :
    Except EngineExc (RouteOut (List String)) :=
  match seqTry getRes logsRes with
  | .ok src => .ok (.ok 200 (iterLogsRun src.chunks src.interrupted))
  | .error (.notFound _) =>
      .ok (.httpError 404 (some ("Container " ++ container_id ++ " not found")))
  | .error (.imageNotFound _) =>
      .ok (.httpError 404 (some ("Container " ++ container_id ++ " not found")))
  | .error (.apiError _ _ _) =>
      .ok (.httpError 500 (some "Error streaming logs"))
  | .error (.containerError _ _) =>
      .ok (.httpError 500 (some "Unexpected error"))
  | .error (.otherExc _) =>
      .ok (.httpError 500 (some "Unexpected error"))

/-! ## The per-request engine session (app/dependencies.py) -/

/-- Result of running one route through the get_podman_client dependency:
whether the handler body was ever entered, and the response (or escaped
exception). -/
structure RouteRun (β : Type) where
  handlerCalled : Bool
  outcome : Except EngineExc (RouteOut β)
deriving DecidableEq, Repr

/-- The get_podman_client dependency wrapped around a handler: a client is
opened for the configured socket and pinged; an APIError from the ping
(NotFound and ImageNotFound included, being APIError subclasses) becomes an
HTTPException 503 naming the socket and the handler is never entered; any
other exception from the ping escapes; on ping success the handler runs. -/
def runRoute (socket : String) (ping : Except EngineExc Unit)
    (handler : Except EngineExc (RouteOut β)) : RouteRun β :=
  match ping with
  | .ok _ => ⟨true, handler⟩
  | .error (.apiError _ _ _) =>
      ⟨false, .ok (.httpError 503
        (some ("Cannot connect to podman socket at " ++ socket)))⟩
  | .error (.notFound _) =>
      ⟨false, .ok (.httpError 503
        (some ("Cannot connect to podman socket at " ++ socket)))⟩
  | .error (.imageNotFound _) =>
      ⟨false, .ok (.httpError 503
        (some ("Cannot connect to podman socket at " ++ socket)))⟩
  | .error e => ⟨false, .error e⟩

/-! ## Delete routes -/

/-- Result of DELETE /containers/(container_id) (delete_container),
together with the engine calls it made: the containers.get argument and,
when get succeeded, the force flag passed to remove. -/
structure DeleteContainerRun where
  getCall : Option String
  removeCall : Option Bool
  outcome : Except EngineExc (RouteOut Unit)
deriving DecidableEq, Repr

/-- Route DELETE /containers/(container_id) (delete_container): gets the
container by its one path identifier and removes it; NotFound maps to 404
naming the identifier, an APIError with embedded status 409 to 409 carrying
the explanation, any other APIError to a fixed 500 message, and any other
exception to a fixed generic 500. -/
def delete_container (container_id : String) (force : Bool)
    (getRes : Except EngineExc Unit) (removeRes : Except EngineExc Unit) :
    DeleteContainerRun :=
  let removeCall := match getRes with
    | .ok _ => some force
    | .error _ => none
  let res : Except EngineExc Unit := seqTry getRes removeRes
  let outcome : Except EngineExc (RouteOut Unit) := match res with
    | .ok _ => .ok (.ok 204 ())
    | .error (.notFound _) =>
        .ok (.httpError 404 (some ("Container " ++ container_id ++ " not found")))
    | .error (.imageNotFound _) =>
        .ok (.httpError 404 (some ("Container " ++ container_id ++ " not found")))
    | .error (.apiError _ statusCode explanation) =>
        if statusCode = some 409 then .ok (.httpError 409 explanation)
        else .ok (.httpError 500
          (some "Error deleting container. Consider using force=True."))
    | .error (.containerError _ _) =>
        .ok (.httpError 500 (some "Unexpected error"))
    | .error (.otherExc _) =>
        .ok (.httpError 500 (some "Unexpected error"))
  ⟨some container_id, removeCall, outcome⟩

/-- Success body of DELETE /images/(image_id): status, message, and the
engine-reported deletion details (kept opaque). -/
structure ImageDeleteBody (α : Type) where
  message : String
  details : α
deriving DecidableEq, Repr

/-- Result of DELETE /images/(image_id) (delete_image) together with the
arguments (image, force) the route passed to images.remove. -/
structure DeleteImageRun (α : Type) where
  removeCall : Option (String × Bool)
  outcome : Except EngineExc (RouteOut (ImageDeleteBody α))
deriving DecidableEq, Repr

/-- Route DELETE /images/(image_id) (delete_image): removes the image by
its one path identifier; ImageNotFound maps to 404 naming the identifier,
every other APIError (an embedded 409 included) to 500 with the exception
text, and any other exception to 500 with the exception text. -/
def delete_image (image_id : String) (force : Bool)
    (removeRes : Except EngineExc α) : DeleteImageRun α :=
  let outcome : Except EngineExc (RouteOut (ImageDeleteBody α)) :=
    match removeRes with
    | .ok details => .ok (.ok 200
        ⟨"Image " ++ image_id ++ " deleted successfully", details⟩)
    | .error (.imageNotFound _) =>
        .ok (.httpError 404 (some ("Image " ++ image_id ++ " not found")))
    | .error (.notFound m) =>
        .ok (.httpError 500 (some ("Error deleting image: " ++ m)))
    | .error (.apiError m _ _) =>
        .ok (.httpError 500 (some ("Error deleting image: " ++ m)))
    | .error (.containerError m _) =>
        .ok (.httpError 500 (some ("Unexpected error: " ++ m)))
    | .error (.otherExc m) =>
        .ok (.httpError 500 (some ("Unexpected error: " ++ m)))
  ⟨some (image_id, force), outcome⟩

/-- Route DELETE /pods/(pod_id) (delete_pod, from the unmounted pods
router): NotFound maps to 404 naming the pod, an APIError with embedded
status 409 to 409 carrying the explanation, any other APIError to a fixed
500 message; there is no catch-all clause, so other exceptions escape. -/
def delete_pod (pod_id : String) (force : Bool)
    (getRes : Except EngineExc Unit) (removeRes : Except EngineExc Unit) :
    Except EngineExc (RouteOut Unit) :=
  let _ := force
  match seqTry getRes removeRes with
  | .ok _ => .ok (.ok 204 ())
  | .error (.notFound _) =>
      .ok (.httpError 404 (some ("Pod \x27" ++ pod_id ++ "\x27 not found")))
  | .error (.imageNotFound _) =>
      .ok (.httpError 404 (some ("Pod \x27" ++ pod_id ++ "\x27 not found")))
  | .error (.apiError _ statusCode explanation) =>
      if statusCode = some 409 then .ok (.httpError 409 explanation)
      else .ok (.httpError 500 (some "Failed to delete pod"))
  | .error e => .error e

/-- Route DELETE /volumes/(volume_name) (delete_volume, from the unmounted
volumes router): NotFound maps to 404 naming the volume, an APIError with
embedded status 409 to 409 carrying the explanation, any other APIError to
a fixed 500 message; other exceptions escape. -/
def delete_volume (volume_name : String) (force : Bool)
    (getRes : Except EngineExc Unit) (removeRes : Except EngineExc Unit) :
    Except EngineExc (RouteOut Unit) :=
  let _ := force
  match seqTry getRes removeRes with
  | .ok _ => .ok (.ok 204 ())
  | .error (.notFound _) =>
      .ok (.httpError 404 (some ("Volume \x27" ++ volume_name ++ "\x27 not found")))
  | .error (.imageNotFound _) =>
      .ok (.httpError 404 (some ("Volume \x27" ++ volume_name ++ "\x27 not found")))
  | .error (.apiError _ statusCode explanation) =>
      if statusCode = some 409 then .ok (.httpError 409 explanation)
      else .ok (.httpError 500 (some "Failed to delete volume"))
  | .error e => .error e

/-! ## Image routes (app/routers/images.py) -/

/-- Wire model of an image returned by the image routes (the ImageModel
the router builds; its class is referenced by the source but its fields
are fixed by the constructor calls in get_images and get_image). -/
structure ImageModel where
  id : String
  repository : String
  tag : Option String
  registry : Option String
  full_name : String
deriving DecidableEq, Repr

/-- An engine image as the routers read it: its id and its tag list. -/
structure EngImage where
  id : String
  tags : List String
deriving DecidableEq, Repr

/-- Tag parsing shared (inline, duplicated) by get_images and get_image:
split the tag on "/", split the last part on ":" to separate repository
and tag value, and join everything before the last part as the registry. -/
def imageModelOfTag (imageId tag : String) : ImageModel :=
  let parts := tag.splitOn "/"
  let lastPart := (parts.getLast?).getD ""
  let repoAndTag := lastPart.splitOn ":"
  let repository := if repoAndTag.length > 1 then (repoAndTag.get? 0).getD "" else lastPart
  let tagValue := if repoAndTag.length > 1 then repoAndTag.get? 1 else none
  let registry := if parts.length > 1 then
      some (String.intercalate "/" (parts.dropLast)) else none
  ⟨imageId, repository, tagValue, registry, tag⟩

/-- The ImageModel built for an image with no tags. -/
def imageModelUntagged (imageId : String) : ImageModel :=
  ⟨imageId, "<none>", none, none, imageId⟩

/-- The ImageModel list get_images builds for one engine image. -/
def imageModelsOf (img : EngImage) : List ImageModel :=
  if img.tags.isEmpty then [imageModelUntagged img.id]
  else img.tags.map (imageModelOfTag img.id)

/-- Route GET /images (get_images): lists images and marshals each into
ImageModel entries; the handler has no fault handling, so any engine
exception escapes to the transport. -/
def get_images (listRes : Except EngineExc (List EngImage)) :
    Except EngineExc (RouteOut (List ImageModel)) :=
  match listRes with
  | .ok images => .ok (.ok 200 (images.flatMap imageModelsOf))
  | .error e => .error e

/-- Route GET /images/(image_id) (get_image): gets one image and marshals
it; ImageNotFound maps to 404 naming the identifier, every other APIError
to 500 with the exception text, any other exception to 500 with the
exception text. -/
def get_image (image_id : String) (getRes : Except EngineExc EngImage) :
    Except EngineExc (RouteOut ImageModel) :=
  match getRes with
  | .ok img => .ok (.ok 200 (match img.tags with
      | [] => imageModelUntagged img.id
      | tag :: _ => imageModelOfTag img.id tag))
  | .error (.imageNotFound _) =>
      .ok (.httpError 404 (some ("Image " ++ image_id ++ " not found")))
  | .error (.notFound m) =>
      .ok (.httpError 500 (some ("Error retrieving image: " ++ m)))
  | .error (.apiError m _ _) =>
      .ok (.httpError 500 (some ("Error retrieving image: " ++ m)))
  | .error (.containerError m _) =>
      .ok (.httpError 500 (some ("Unexpected error: " ++ m)))
  | .error (.otherExc m) =>
      .ok (.httpError 500 (some ("Unexpected error: " ++ m)))

/-- Python truthiness of an optional string field: present and non-empty. -/
def truthyStr : Option String → Bool
  | none => false
  | some s => !(s == "")

/-- Success body of POST /images/pull: status and message fields. -/
structure PullBody where
  message : String
deriving DecidableEq, Repr

/-- Result of POST /images/pull (pull_image), with the engine calls it
made: the optional login call (username, password, registry) and the
arguments of the images.pull call (repository, tag, auth_config). -/
structure PullImageRun where
  loginCall : Option (String × String × Option String)
  pullRepository : String
  pullTag : String
  pullAuth : Option (String × String)
  outcome : Except EngineExc (RouteOut PullBody)
deriving DecidableEq, Repr

/-- Route POST /images/pull (pull_image): prefixes the repository with the
registry when one is given, logs in first exactly when username and
password are both truthy (building auth_config from them, otherwise
leaving it None), then pulls; ImageNotFound maps to 404 naming
repository:tag, every other APIError to 500 with the exception text, any
other exception to 500 with the exception text. -/
def pull_image (repository tag : String)
    (registry username password : Option String)
    (pullRes : Except EngineExc Unit) : PullImageRun :=
  let full_repository :=
    if truthyStr registry then registry.getD "" ++ "/" ++ repository
    else repository
  let doLogin := truthyStr username && truthyStr password
  let loginCall :=
    if doLogin then some (username.getD "", password.getD "", registry) else none
  let auth_config :=
    if doLogin then some (username.getD "", password.getD "") else none
  let outcome : Except EngineExc (RouteOut PullBody) :=
    match pullRes with
    | .ok _ => .ok (.ok 200
        ⟨"Image " ++ repository ++ ":" ++ tag ++ " pulled successfully"⟩)
    | .error (.imageNotFound _) =>
        .ok (.httpError 404
          (some ("Image " ++ repository ++ ":" ++ tag ++ " not found")))
    | .error (.notFound m) =>
        .ok (.httpError 500 (some ("Error pulling image: " ++ m)))
    | .error (.apiError m _ _) =>
        .ok (.httpError 500 (some ("Error pulling image: " ++ m)))
    | .error (.containerError m _) =>
        .ok (.httpError 500 (some ("Unexpected error: " ++ m)))
    | .error (.otherExc m) =>
        .ok (.httpError 500 (some ("Unexpected error: " ++ m)))
  ⟨loginCall, full_repository, tag, auth_config, outcome⟩

/-! ## Login and info routes -/

/-- Success body of POST /login/repository. -/
structure LoginBody (α : Type) where
  message : String
  details : α
deriving DecidableEq, Repr

/-- Route POST /login/repository (login_repository): logs in with the
given credentials; an APIError maps to 401 with the exception text, any
other exception to 500 with the exception text. -/
def login_repository (registry : String)
    (loginRes : Except EngineExc α) :
    Except EngineExc (RouteOut (LoginBody α)) :=
  match loginRes with
  | .ok details => .ok (.ok 200
      ⟨"Successfully logged in to " ++ registry, details⟩)
  | .error (.notFound m) =>
      .ok (.httpError 401 (some ("Authentication failed: " ++ m)))
  | .error (.imageNotFound m) =>
      .ok (.httpError 401 (some ("Authentication failed: " ++ m)))
  | .error (.apiError m _ _) =>
      .ok (.httpError 401 (some ("Authentication failed: " ++ m)))
  | .error (.containerError m _) =>
      .ok (.httpError 500 (some ("Unexpected error: " ++ m)))
  | .error (.otherExc m) =>
      .ok (.httpError 500 (some ("Unexpected error: " ++ m)))

/-- Route GET /info (get_info): returns the engine info document; the
handler has no fault handling, so any engine exception escapes to the
transport. -/
def get_info (infoRes : Except EngineExc α) :
    Except EngineExc (RouteOut α) :=
  match infoRes with
  | .ok info => .ok (.ok 200 info)
  | .error e => .error e

/-! ## Container list route (app/routers/containers.py) -/

/-- Values a container list filter can carry. -/
inductive FilterV where
  | s (v : String)
  | i (v : Int)
deriving DecidableEq, Repr

/-- Status filter values of the container list route. -/
inductive ContainerStatus where
  | created | initialized | running | paused | exited | unknown
deriving DecidableEq, Repr

/-- The string value of a container status (Status.value). -/
def ContainerStatus.value : ContainerStatus → String
  | .created => "created"
  | .initialized => "initialized"
  | .running => "running"
  | .paused => "paused"
  | .exited => "exited"
  | .unknown => "unknown"

/-- The filters dict list_containers builds: each of status, exited, id and
name is added exactly when the query parameter is not None. -/
def containersFilters (status : Option ContainerStatus) (exited : Option Int)
    (id_ name : Option String) : List (String × FilterV) :=
  (match status with | some st => [("status", FilterV.s st.value)] | none => []) ++
  (match exited with | some e => [("exited", FilterV.i e)] | none => []) ++
  (match id_ with | some i => [("id", FilterV.s i)] | none => []) ++
  (match name with | some n => [("name", FilterV.s n)] | none => [])

/-- Route GET /containers (list_containers): builds the sparse filters and
lists containers; an APIError (its subclasses included) maps to a fixed
500 message, but there is no catch-all clause, so any other exception
escapes to the transport. -/
def list_containers (listRes : Except EngineExc (List α)) :
    Except EngineExc (RouteOut (List α)) :=
  match listRes with
  | .ok containers => .ok (.ok 200 containers)
  | .error (.notFound _) =>
      .ok (.httpError 500 (some "Error listing containers"))
  | .error (.imageNotFound _) =>
      .ok (.httpError 500 (some "Error listing containers"))
  | .error (.apiError _ _ _) =>
      .ok (.httpError 500 (some "Error listing containers"))
  | .error e => .error e

/-! ## The run route (POST /containers, run_container)

The request model mirrors the handler signature: image_name is required;
command, remove and detach are passed to the engine unconditionally; every
other field is optional and is copied into the kwargs dict by the if-chain
of the handler.  Fields typed dict[str, Any] or list[dict[str, Any]] in
the source carry an opaque payload type α here. -/

/-- A value that is either one string or a list of strings
(command and entrypoint accept both). -/
inductive CmdVal where
  | ofStr (s : String)
  | ofList (l : List String)
deriving DecidableEq, Repr

/-- A port mapping value: int, string, or list of strings. -/
inductive PortVal where
  | pInt (v : Int)
  | pStr (v : String)
  | pList (v : List String)
deriving DecidableEq, Repr

/-- A value forwarded to the engine run call under some parameter name. -/
inductive RunArg (α : Type) where
  | str (v : String)
  | int (v : Int)
  | bool (v : Bool)
  | cmd (v : Option CmdVal)
  | strOrList (v : CmdVal)
  | strList (v : List String)
  | strMap (v : List (String × String))
  | nestedMap (v : List (String × List (String × String)))
  | portMap (v : List (String × PortVal))
  | anyMap (v : List (String × α))
  | anyMapList (v : List (List (String × α)))
deriving DecidableEq, Repr

/-- The request body of POST /containers, one field per handler parameter,
with the handler defaults as structure defaults. -/
structure RunRequest (α : Type) where
  image_name : String
  container_name : Option String := none
  command : Option CmdVal := none
  environment : Option (List (String × String)) := none
  volumes : Option (List (String × List (String × String))) := none
  detach : Bool := false
  remove : Bool := false
  auto_remove : Bool := false
  privileged : Bool := false
  network : Option String := none
  ports : Option (List (String × PortVal)) := none
  user : Option String := none
  working_dir : Option String := none
  entrypoint : Option CmdVal := none
  cap_add : Option (List String) := none
  cap_drop : Option (List String) := none
  device_cgroup_rules : Option (List String) := none
  devices : Option (List String) := none
  dns : Option (List String) := none
  dns_search : Option (List String) := none
  extra_hosts : Option (List (String × String)) := none
  group_add : Option (List String) := none
  init : Option Bool := none
  ipc_mode : Option String := none
  isolation : Option String := none
  labels : Option (List (String × String)) := none
  log_driver : Option String := none
  log_options : Option (List (String × String)) := none
  mac_address : Option String := none
  mem_limit : Option String := none
  mem_reservation : Option String := none
  memswap_limit : Option String := none
  oom_kill_disable : Option Bool := none
  oom_score_adj : Option Int := none
  pid_mode : Option String := none
  pids_limit : Option Int := none
  platform : Option String := none
  restart_policy : Option (List (String × α)) := none
  security_opt : Option (List String) := none
  shm_size : Option String := none
  stdin_open : Option Bool := none
  stop_signal : Option String := none
  stop_timeout : Option Int := none
  storage_opt : Option (List (String × String)) := none
  sysctls : Option (List (String × String)) := none
  tmpfs : Option (List (String × String)) := none
  tty : Option Bool := none
  ulimits : Option (List (List (String × α))) := none
  userns_mode : Option String := none
  uts_mode : Option String := none
  volume_driver : Option String := none
  volumes_from : Option (List String) := none

/-- Python truthiness of an optional list-valued field. -/
def truthyList : Option (List β) → Bool
  | none => false
  | some l => !l.isEmpty

/-- Python truthiness of an optional string-or-list field. -/
def truthyCmd : Option CmdVal → Bool
  | none => false
  | some (.ofStr s) => !(s == "")
  | some (.ofList l) => !l.isEmpty

/-- One step of the kwargs if-chain: add the entry when the condition of
its if-statement holds (dict insertion, keys are pairwise distinct). -/
def addIf (c : Bool) (k : String) (v : RunArg α)
    (m : List (String × RunArg α)) : List (String × RunArg α) :=
  if c then m ++ [(k, v)] else m

/-- The kwargs dict run_container builds, one addIf per if-statement of the
source, in source order. -/
def kwargs (r : RunRequest α) : List (String × RunArg α) :=
  ([] : List (String × RunArg α))
  |> addIf (truthyStr r.container_name) "name" (.str (r.container_name.getD ""))
  |> addIf (truthyList r.environment) "environment" (.strMap (r.environment.getD []))
  |> addIf (truthyList r.volumes) "volumes" (.nestedMap (r.volumes.getD []))
  |> addIf r.detach "detach" (.bool r.detach)
  |> addIf r.auto_remove "auto_remove" (.bool r.auto_remove)
  |> addIf r.privileged "privileged" (.bool r.privileged)
  |> addIf (truthyStr r.network) "network" (.str (r.network.getD ""))
  |> addIf (truthyList r.ports) "ports" (.portMap (r.ports.getD []))
  |> addIf (truthyStr r.user) "user" (.str (r.user.getD ""))
  |> addIf (truthyStr r.working_dir) "working_dir" (.str (r.working_dir.getD ""))
  |> addIf (truthyCmd r.entrypoint) "entrypoint"
      (.strOrList (r.entrypoint.getD (.ofStr "")))
  |> addIf (truthyList r.cap_add) "cap_add" (.strList (r.cap_add.getD []))
  |> addIf (truthyList r.cap_drop) "cap_drop" (.strList (r.cap_drop.getD []))
  |> addIf (truthyList r.device_cgroup_rules) "device_cgroup_rules"
      (.strList (r.device_cgroup_rules.getD []))
  |> addIf (truthyList r.devices) "devices" (.strList (r.devices.getD []))
  |> addIf (truthyList r.dns) "dns" (.strList (r.dns.getD []))
  |> addIf (truthyList r.dns_search) "dns_search" (.strList (r.dns_search.getD []))
  |> addIf (truthyList r.extra_hosts) "extra_hosts" (.strMap (r.extra_hosts.getD []))
  |> addIf (truthyList r.group_add) "group_add" (.strList (r.group_add.getD []))
  |> addIf r.init.isSome "init" (.bool (r.init.getD false))
  |> addIf (truthyStr r.ipc_mode) "ipc_mode" (.str (r.ipc_mode.getD ""))
  |> addIf (truthyStr r.isolation) "isolation" (.str (r.isolation.getD ""))
  |> addIf (truthyList r.labels) "labels" (.strMap (r.labels.getD []))
  |> addIf (truthyStr r.log_driver) "log_driver" (.str (r.log_driver.getD ""))
  |> addIf (truthyList r.log_options) "log_options" (.strMap (r.log_options.getD []))
  |> addIf (truthyStr r.mac_address) "mac_address" (.str (r.mac_address.getD ""))
  |> addIf (truthyStr r.mem_limit) "mem_limit" (.str (r.mem_limit.getD ""))
  |> addIf (truthyStr r.mem_reservation) "mem_reservation"
      (.str (r.mem_reservation.getD ""))
  |> addIf (truthyStr r.memswap_limit) "memswap_limit"
      (.str (r.memswap_limit.getD ""))
  |> addIf r.oom_kill_disable.isSome "oom_kill_disable"
      (.bool (r.oom_kill_disable.getD false))
  |> addIf r.oom_score_adj.isSome "oom_score_adj"
      (.int (r.oom_score_adj.getD 0))
  |> addIf (truthyStr r.pid_mode) "pid_mode" (.str (r.pid_mode.getD ""))
  |> addIf r.pids_limit.isSome "pids_limit" (.int (r.pids_limit.getD 0))
  |> addIf (truthyStr r.platform) "platform" (.str (r.platform.getD ""))
  |> addIf (truthyList r.restart_policy) "restart_policy"
      (.anyMap (r.restart_policy.getD []))
  |> addIf (truthyList r.security_opt) "security_opt"
      (.strList (r.security_opt.getD []))
  |> addIf (truthyStr r.shm_size) "shm_size" (.str (r.shm_size.getD ""))
  |> addIf r.stdin_open.isSome "stdin_open" (.bool (r.stdin_open.getD false))
  |> addIf (truthyStr r.stop_signal) "stop_signal" (.str (r.stop_signal.getD ""))
  |> addIf r.stop_timeout.isSome "stop_timeout" (.int (r.stop_timeout.getD 0))
  |> addIf (truthyList r.storage_opt) "storage_opt" (.strMap (r.storage_opt.getD []))
  |> addIf (truthyList r.sysctls) "sysctls" (.strMap (r.sysctls.getD []))
  |> addIf (truthyList r.tmpfs) "tmpfs" (.strMap (r.tmpfs.getD []))
  |> addIf r.tty.isSome "tty" (.bool (r.tty.getD false))
  |> addIf (truthyList r.ulimits) "ulimits" (.anyMapList (r.ulimits.getD []))
  |> addIf (truthyStr r.userns_mode) "userns_mode" (.str (r.userns_mode.getD ""))
  |> addIf (truthyStr r.uts_mode) "uts_mode" (.str (r.uts_mode.getD ""))
  |> addIf (truthyStr r.volume_driver) "volume_driver"
      (.str (r.volume_driver.getD ""))
  |> addIf (truthyList r.volumes_from) "volumes_from"
      (.strList (r.volumes_from.getD []))

/-- The full keyword-argument mapping of the engine run call:
image, command and remove are passed unconditionally, then the kwargs. -/
def callArguments (r : RunRequest α) : List (String × RunArg α) :=
  ("image", .str r.image_name) :: ("command", .cmd r.command) ::
    ("remove", .bool r.remove) :: kwargs r

/-- Values containers.run can return: a Container object (with id and name
attributes, or defensively without), bytes, text, an iterator of chunks,
or anything else. -/
inductive RunResult where
  | container (id name : String)
  | containerBare
  | bytes (b : String)
  | txt (s : String)
  | iter (parts : List StrOrBytes)
  | otherVal (s : String)
deriving DecidableEq, Repr

/-- The output string the non-detached branch builds from the run result
(bytes decoded, text kept, iterator items decoded and joined, `str` of
anything else; the `str` of a Container object is modelled by its id,
a path no claim touches). -/
def runOutput : RunResult → String
  | .container id _ => id
  | .containerBare => ""
  | .bytes b => b
  | .txt s => s
  | .iter parts => String.join (parts.map StrOrBytes.content)
  | .otherVal s => s

/-- Success body of POST /containers. -/
inductive RunBody where
  | started (message container_id container_name : String)
  | startedBare (message : String)
  | completed (message output : String)
deriving DecidableEq, Repr

/-- Route POST /containers (run_container): on success, the detached
branch reports the container identity when the result has one, and the
non-detached branch reports the joined output; ImageNotFound maps to 404
naming the image, ContainerError to 500 with the exception text and exit
status, every other APIError to 500 with the exception text, any other
exception to 500 with the exception text. -/
def run_container (r : RunRequest α)
    (runRes : Except EngineExc RunResult) :
    Except EngineExc (RouteOut RunBody) :=
  match runRes with
  | .ok result =>
      if r.detach then
        match result with
        | .container id name => .ok (.ok 200
            (.started ("Container started from image " ++ r.image_name) id name))
        | _ => .ok (.ok 200
            (.startedBare ("Container started from image " ++ r.image_name)))
      else
        .ok (.ok 200 (.completed
          ("Container from image " ++ r.image_name ++ " completed")
          (runOutput result)))
  | .error (.imageNotFound _) =>
      .ok (.httpError 404 (some ("Image " ++ r.image_name ++ " not found")))
  | .error (.containerError m exitStatus) =>
      .ok (.httpError 500 (some ("Container error: " ++ m ++ ". Exit code: "
        ++ toString exitStatus)))
  | .error (.notFound m) =>
      .ok (.httpError 500 (some ("Error running container: " ++ m)))
  | .error (.apiError m _ _) =>
      .ok (.httpError 500 (some ("Error running container: " ++ m)))
  | .error (.otherExc m) =>
      .ok (.httpError 500 (some ("Unexpected error: " ++ m)))

/-! ## Spec-side forwarding rule (section 4.2 of the spec)

These definitions follow the words of the spec, not the source: each
optional run-parameter carries a declared rule — strings and collections
truthy-forward-only, plain booleans truthy-forward-only, nullable booleans
and integers presence-forward-always — and the expected CallArguments are
assembled from those per-parameter rules.  Claim C6 compares this with the
kwargs dict the source builds. -/

/-- Spec rule for an optional string parameter: included exactly when
supplied and non-empty, with the supplied value. -/
def entryStr (k : String) (o : Option String) : List (String × RunArg α) :=
  match o with
  | some s => if s = "" then [] else [(k, .str s)]
  | none => []

/-- Spec rule for an optional collection parameter: included exactly when
supplied and non-empty, with the supplied value (embed names the
parameter's collection shape). -/
def entryNonempty (k : String) (o : Option (List β))
    (embed : List β → RunArg α) : List (String × RunArg α) :=
  match o with
  | some l => if l.isEmpty then [] else [(k, embed l)]
  | none => []

/-- Spec rule for the string-or-list entrypoint parameter: included exactly
when supplied and non-empty. -/
def entryCmd (k : String) (o : Option CmdVal) : List (String × RunArg α) :=
  match o with
  | some (.ofStr s) => if s = "" then [] else [(k, .strOrList (.ofStr s))]
  | some (.ofList l) => if l = [] then [] else [(k, .strOrList (.ofList l))]
  | none => []

/-- Spec rule for a plain (non-nullable) boolean parameter: truthy-include,
so it is forwarded exactly when true. -/
def entryFlag (k : String) (b : Bool) : List (String × RunArg α) :=
  if b then [(k, .bool b)] else []

/-- Spec rule for a nullable boolean parameter: presence-include, so an
explicit false is still forwarded. -/
def entryOptBool (k : String) (o : Option Bool) : List (String × RunArg α) :=
  match o with
  | some b => [(k, .bool b)]
  | none => []

/-- Spec rule for a nullable integer parameter: presence-include, so an
explicit 0 is still forwarded. -/
def entryOptInt (k : String) (o : Option Int) : List (String × RunArg α) :=
  match o with
  | some n => [(k, .int n)]
  | none => []

/-- The CallArguments the spec prescribes for the optional run-parameters,
one entry-rule per parameter, in the same parameter order as the source. -/
def specRunKwargs (r : RunRequest α) : List (String × RunArg α) :=
  entryStr "name" r.container_name ++
  entryNonempty "environment" r.environment .strMap ++
  entryNonempty "volumes" r.volumes .nestedMap ++
  entryFlag "detach" r.detach ++
  entryFlag "auto_remove" r.auto_remove ++
  entryFlag "privileged" r.privileged ++
  entryStr "network" r.network ++
  entryNonempty "ports" r.ports .portMap ++
  entryStr "user" r.user ++
  entryStr "working_dir" r.working_dir ++
  entryCmd "entrypoint" r.entrypoint ++
  entryNonempty "cap_add" r.cap_add .strList ++
  entryNonempty "cap_drop" r.cap_drop .strList ++
  entryNonempty "device_cgroup_rules" r.device_cgroup_rules .strList ++
  entryNonempty "devices" r.devices .strList ++
  entryNonempty "dns" r.dns .strList ++
  entryNonempty "dns_search" r.dns_search .strList ++
  entryNonempty "extra_hosts" r.extra_hosts .strMap ++
  entryNonempty "group_add" r.group_add .strList ++
  entryOptBool "init" r.init ++
  entryStr "ipc_mode" r.ipc_mode ++
  entryStr "isolation" r.isolation ++
  entryNonempty "labels" r.labels .strMap ++
  entryStr "log_driver" r.log_driver ++
  entryNonempty "log_options" r.log_options .strMap ++
  entryStr "mac_address" r.mac_address ++
  entryStr "mem_limit" r.mem_limit ++
  entryStr "mem_reservation" r.mem_reservation ++
  entryStr "memswap_limit" r.memswap_limit ++
  entryOptBool "oom_kill_disable" r.oom_kill_disable ++
  entryOptInt "oom_score_adj" r.oom_score_adj ++
  entryStr "pid_mode" r.pid_mode ++
  entryOptInt "pids_limit" r.pids_limit ++
  entryStr "platform" r.platform ++
  entryNonempty "restart_policy" r.restart_policy .anyMap ++
  entryNonempty "security_opt" r.security_opt .strList ++
  entryStr "shm_size" r.shm_size ++
  entryOptBool "stdin_open" r.stdin_open ++
  entryStr "stop_signal" r.stop_signal ++
  entryOptInt "stop_timeout" r.stop_timeout ++
  entryNonempty "storage_opt" r.storage_opt .strMap ++
  entryNonempty "sysctls" r.sysctls .strMap ++
  entryNonempty "tmpfs" r.tmpfs .strMap ++
  entryOptBool "tty" r.tty ++
  entryNonempty "ulimits" r.ulimits .anyMapList ++
  entryStr "userns_mode" r.userns_mode ++
  entryStr "uts_mode" r.uts_mode ++
  entryStr "volume_driver" r.volume_driver ++
  entryNonempty "volumes_from" r.volumes_from .strList

/-! ## Bridge lemmas between the source if-chain and the spec rules -/

theorem addIf_eq (c : Bool) (k : String) (v : RunArg α)
    (m : List (String × RunArg α)) :
    addIf c k v m = m ++ (if c then [(k, v)] else []) := by
  cases c <;> simp [addIf]

theorem entryStr_eq (k : String) (o : Option String) :
    entryStr k o
      = (if truthyStr o then [(k, (RunArg.str (o.getD "") : RunArg α))] else []) := by
  cases o with
  | none => rfl
  | some s =>
    by_cases h : s = "" <;> simp [entryStr, truthyStr, h]

theorem entryNonempty_eq (k : String) (o : Option (List β))
    (embed : List β → RunArg α) :
    entryNonempty k o embed
      = (if truthyList o then [(k, embed (o.getD []))] else []) := by
  cases o with
  | none => rfl
  | some l =>
    cases h : l.isEmpty <;> simp [entryNonempty, truthyList, h]

theorem entryCmd_eq (k : String) (o : Option CmdVal) :
    entryCmd k o
      = (if truthyCmd o
          then [(k, (RunArg.strOrList (o.getD (.ofStr "")) : RunArg α))] else []) := by
  cases o with
  | none => rfl
  | some v =>
    cases v with
    | ofStr s => by_cases h : s = "" <;> simp [entryCmd, truthyCmd, h]
    | ofList l => by_cases h : l = [] <;> simp [entryCmd, truthyCmd, h]

theorem entryOptBool_eq (k : String) (o : Option Bool) :
    entryOptBool k o
      = (if o.isSome then [(k, (RunArg.bool (o.getD false) : RunArg α))] else []) := by
  cases o <;> rfl

theorem entryOptInt_eq (k : String) (o : Option Int) :
    entryOptInt k o
      = (if o.isSome then [(k, (RunArg.int (o.getD 0) : RunArg α))] else []) := by
  cases o <;> rfl

theorem entryFlag_eq (k : String) (b : Bool) :
    entryFlag k b = (if b then [(k, (RunArg.bool b : RunArg α))] else []) := rfl

/-! ## Claim theorems -/

/-- C6: for every run-container request, the kwargs dict the source
if-chain builds is exactly the CallArguments the per-parameter spec rules
prescribe: a parameter absent from the request never appears, a nullable
boolean or integer that is explicitly present always appears with the
supplied value (explicit false and 0 included), and plain booleans,
strings and collections are included exactly when truthy, with the
supplied value. -/
theorem C6_run_optional_param_forwarding (α : Type) (r : RunRequest α) :
    kwargs r = specRunKwargs r := by
  simp only [kwargs, specRunKwargs, addIf_eq, entryStr_eq, entryNonempty_eq,
    entryCmd_eq, entryOptBool_eq, entryOptInt_eq, entryFlag_eq,
    List.nil_append, List.append_assoc]

/-- C7: the run request whose body is exactly image_name = "x" and
detach = true makes the engine run call with exactly the arguments
image = "x", command = null, remove = false, detach = true and no other
keys; and on every run request the arguments image, command and remove
are passed unconditionally, in that order, ahead of the optional ones. -/
theorem C7_run_call_arguments :
    callArguments ({ image_name := "x", detach := true } : RunRequest Unit)
        = [("image", .str "x"), ("command", .cmd none),
           ("remove", .bool false), ("detach", .bool true)] ∧
      ∀ (α : Type) (r : RunRequest α),
        (callArguments r).take 3
          = [("image", .str r.image_name), ("command", .cmd r.command),
             ("remove", .bool r.remove)] := by
  constructor
  · rfl
  · intro α r
    rfl

/-- C1: the delete-by-identifier routes of the source take exactly one
required path identifier and forward it to the engine remove operation
unconditionally; no input produces an HTTP 400 client fault, so the
claimed and tested both-or-neither-supplied 400 behavior does not exist
in the code (the id/name pair is not even representable). -/
theorem C1_delete_identifier_always_forwarded_never_400 :
    ∀ (container_id image_id : String) (force : Bool)
      (g rm : Except EngineExc Unit) (ir : Except EngineExc Unit),
      (delete_image image_id force ir).removeCall = some (image_id, force) ∧
        handledStatus (delete_image image_id force ir).outcome ≠ some 400 ∧
        (delete_container container_id force g rm).getCall = some container_id ∧
        handledStatus (delete_container container_id force g rm).outcome ≠ some 400 := by
  intro container_id image_id force g rm ir
  refine ⟨rfl, ?_, rfl, ?_⟩
  · cases ir with
    | ok v => simp [delete_image, handledStatus, RouteOut.statusOf]
    | error e =>
      cases e <;> simp [delete_image, handledStatus, RouteOut.statusOf]
  · cases g with
    | ok v =>
      cases rm with
      | ok w => simp [delete_container, seqTry, handledStatus, RouteOut.statusOf]
      | error e =>
        cases e with
        | apiError m sc expl =>
          by_cases h : sc = some 409 <;>
            simp [delete_container, seqTry, handledStatus, RouteOut.statusOf, h]
        | notFound m =>
          simp [delete_container, seqTry, handledStatus, RouteOut.statusOf]
        | imageNotFound m =>
          simp [delete_container, seqTry, handledStatus, RouteOut.statusOf]
        | containerError m x =>
          simp [delete_container, seqTry, handledStatus, RouteOut.statusOf]
        | otherExc m =>
          simp [delete_container, seqTry, handledStatus, RouteOut.statusOf]
    | error e =>
      cases e with
      | apiError m sc expl =>
        by_cases h : sc = some 409 <;>
          simp [delete_container, seqTry, handledStatus, RouteOut.statusOf, h]
      | notFound m =>
        simp [delete_container, seqTry, handledStatus, RouteOut.statusOf]
      | imageNotFound m =>
        simp [delete_container, seqTry, handledStatus, RouteOut.statusOf]
      | containerError m x =>
        simp [delete_container, seqTry, handledStatus, RouteOut.statusOf]
      | otherExc m =>
        simp [delete_container, seqTry, handledStatus, RouteOut.statusOf]

/-- C2 counterexample: for the underlying chunks b"partial-", b"line\n",
b"second\n" the batch adapter returns ["partial-", "line", "second"], not
the claimed ["partial-line", "second"]: the line spanning the first two
chunks is split at the chunk boundary. -/
theorem C2_counterexample_boundary_chunks :
    getLogsLines (.iter [.bytes "partial-", .bytes "line\n", .bytes "second\n"])
        = ["partial-", "line", "second"] ∧
      getLogsLines (.iter [.bytes "partial-", .bytes "line\n", .bytes "second\n"])
        ≠ ["partial-line", "second"] := by
  constructor <;> decide

/-- C2 (amended): for an iterable engine payload the batch adapter splits
each chunk on line boundaries independently and concatenates the per-chunk
line lists in order (it never joins chunks first), so the three chunks
b"partial-", b"line\n", b"second\n" yield ["partial-", "line", "second"]. -/
theorem C2_batch_lines_split_per_chunk :
    (∀ (parts : List StrOrBytes) (lines : List String),
        collectIterLines parts lines
          = lines ++ parts.flatMap (fun p => pySplitlines p.content)) ∧
      getLogsLines (.iter [.bytes "partial-", .bytes "line\n", .bytes "second\n"])
        = ["partial-", "line", "second"] := by
  constructor
  · intro parts
    induction parts with
    | nil => intro lines; simp [collectIterLines]
    | cons p rest ih =>
      intro lines
      simp [collectIterLines, ih, List.append_assoc]
  · decide

/-- C3 counterexample: two runs that differ only in the detail text of the
engine-raised APIError produce different client-facing 500 messages on the
run route, so the raw engine exception text reaches the client. -/
theorem C3_counterexample_engine_text_leaks :
    handledDetail (run_container ({ image_name := "img" } : RunRequest Unit)
        (.error (.apiError "engine detail A" none none)))
      ≠ handledDetail (run_container ({ image_name := "img" } : RunRequest Unit)
        (.error (.apiError "engine detail B" none none))) := by
  decide

/-- C3 (amended): the list, logs and container-delete handlers answer
server and unexpected outcomes with fixed messages independent of the
engine exception text, but run_container, pull_image, get_image,
delete_image and login_repository interpolate the raw engine exception
text into the client-visible message. -/
theorem C3_amended_message_policy :
    ∀ (m cid iid reg repo tag : String) (r : RunRequest Unit),
      handledDetail (run_container r (.error (.apiError m none none)))
          = some ("Error running container: " ++ m) ∧
        handledDetail (run_container r (.error (.otherExc m)))
          = some ("Unexpected error: " ++ m) ∧
        handledDetail (pull_image repo tag none none none
            (.error (.apiError m none none))).outcome
          = some ("Error pulling image: " ++ m) ∧
        handledDetail (get_image iid (.error (.apiError m none none)))
          = some ("Error retrieving image: " ++ m) ∧
        handledDetail (delete_image iid false
            (.error (.apiError m none none) : Except EngineExc Unit)).outcome
          = some ("Error deleting image: " ++ m) ∧
        handledDetail (login_repository reg
            (.error (.apiError m none none) : Except EngineExc Unit))
          = some ("Authentication failed: " ++ m) ∧
        handledDetail (get_logs_json cid (.ok ()) (.error (.apiError m none none)))
          = some "Error fetching logs" ∧
        handledDetail (stream_logs cid (.ok ()) (.error (.apiError m none none)))
          = some "Error streaming logs" ∧
        handledDetail (delete_container cid false (.ok ())
            (.error (.apiError m (some 500) none))).outcome
          = some "Error deleting container. Consider using force=True." ∧
        handledDetail (list_containers (.error (.apiError m none none)
            : Except EngineExc (List Unit)))
          = some "Error listing containers" := by
  intro m cid iid reg repo tag r
  exact ⟨rfl, rfl, rfl, rfl, rfl, rfl, rfl, rfl, rfl, rfl⟩

/-- C4 counterexample: on GET /info an engine-raised APIError is not
caught by the handler and propagates unclassified to the transport. -/
theorem C4_counterexample_info_fault_escapes :
    isClassified (get_info (.error (.apiError "boom" none none)
        : Except EngineExc Unit)) = false := by
  decide

/-- C4 (amended): routes with fault handlers classify every engine fault
(run, the deletes, pull, single-image get, logs, login catch all
exceptions; the container list route catches the APIError hierarchy), but
GET /info and GET /images have no handler at all, so on those two routes
every engine fault propagates unclassified to the transport. -/
theorem C4_amended_fault_classification :
    ∀ (exc : EngineExc) (cid iid reg : String) (force : Bool)
      (r : RunRequest Unit),
      isClassified (run_container r (.error exc)) = true ∧
        isClassified (delete_container cid force (.ok ()) (.error exc)).outcome
          = true ∧
        isClassified (delete_container cid force (.error exc) (.ok ())).outcome
          = true ∧
        isClassified (delete_image iid force
            (.error exc : Except EngineExc Unit)).outcome = true ∧
        isClassified (pull_image reg "latest" none none none
            (.error exc)).outcome = true ∧
        isClassified (get_image iid (.error exc)) = true ∧
        isClassified (get_logs_json cid (.error exc) (.ok (.str ""))) = true ∧
        isClassified (get_logs_json cid (.ok ()) (.error exc)) = true ∧
        isClassified (stream_logs cid (.ok ()) (.error exc)) = true ∧
        isClassified (login_repository reg
            (.error exc : Except EngineExc Unit)) = true ∧
        (exc.isApiFault = true →
          isClassified (list_containers (.error exc : Except EngineExc (List Unit)))
            = true) ∧
        isClassified (get_info (.error exc : Except EngineExc Unit)) = false ∧
        isClassified (get_images (.error exc)) = false := by
  intro exc cid iid reg force r
  cases exc with
  | apiError m sc expl =>
    by_cases h : sc = some 409 <;>
      simp [run_container, delete_container, delete_image, pull_image, get_image,
        get_logs_json, stream_logs, login_repository, list_containers, get_info,
        get_images, seqTry, isClassified, EngineExc.isApiFault, h]
  | notFound m =>
    simp [run_container, delete_container, delete_image, pull_image, get_image,
        get_logs_json, stream_logs, login_repository, list_containers, get_info,
        get_images, seqTry, isClassified, EngineExc.isApiFault]
  | imageNotFound m =>
    simp [run_container, delete_container, delete_image, pull_image, get_image,
        get_logs_json, stream_logs, login_repository, list_containers, get_info,
        get_images, seqTry, isClassified, EngineExc.isApiFault]
  | containerError m x =>
    simp [run_container, delete_container, delete_image, pull_image, get_image,
        get_logs_json, stream_logs, login_repository, list_containers, get_info,
        get_images, seqTry, isClassified, EngineExc.isApiFault]
  | otherExc m =>
    simp [run_container, delete_container, delete_image, pull_image, get_image,
        get_logs_json, stream_logs, login_repository, list_containers, get_info,
        get_images, seqTry, isClassified, EngineExc.isApiFault]

/-- C5: an engine API fault with embedded status 409 on a remove path is
passed through as 409 with the engine explanation verbatim by the
container, pod and volume delete routes, but the image delete route maps
the same fault to 500 with a message built from the exception text. -/
theorem C5_remove_conflict_handling :
    (delete_container "c1" false (.ok ())
        (.error (.apiError "conflict" (some 409) (some "Container is in use")))).outcome
        = .ok (.httpError 409 (some "Container is in use")) ∧
      delete_pod "p1" false (.ok ())
          (.error (.apiError "conflict" (some 409) (some "pod is in use")))
        = .ok (.httpError 409 (some "pod is in use")) ∧
      delete_volume "v1" false (.ok ())
          (.error (.apiError "conflict" (some 409) (some "volume is in use")))
        = .ok (.httpError 409 (some "volume is in use")) ∧
      (delete_image "nginx:latest" false
          (.error (.apiError "image is in use by a container" (some 409)
            (some "image used by a container")) : Except EngineExc Unit)).outcome
        = .ok (.httpError 500
            (some "Error deleting image: image is in use by a container")) := by
  refine ⟨?_, ?_, ?_, ?_⟩ <;> decide

/-- C8: when the engine log iterator yields some chunks and then raises
mid-stream, the stream adapter produces exactly the yielded chunks
followed by one diagnostic chunk and ends cleanly (it is a total function
into a finite chunk list, nothing escapes); in particular two chunks then
a fault yield [chunk1, chunk2, diagnostic]. -/
theorem C8_stream_fault_containment :
    (∀ (chunks : List StrOrBytes),
        iterLogsRun chunks true
            = chunks.map StrOrBytes.encoded ++ [streamErrChunk] ∧
          iterLogsRun chunks false = chunks.map StrOrBytes.encoded) ∧
      stream_logs "abc" (.ok ())
          (.ok ⟨[.bytes "chunk1", .bytes "chunk2"], true⟩)
        = .ok (.ok 200 ["chunk1", "chunk2", streamErrChunk]) := by
  constructor
  · intro chunks
    induction chunks with
    | nil => exact ⟨rfl, rfl⟩
    | cons c rest ih =>
      refine ⟨?_, ?_⟩ <;> simp [iterLogsRun, ih.1, ih.2]
  · decide

/-- C9: when the liveness probe at session acquisition fails (the ping
raises an APIError), every route answers 503 with a message naming the
configured engine socket and the handler body is never entered. -/
theorem C9_probe_failure_503 :
    ∀ (socket m : String) (sc : Option Nat) (expl : Option String)
      (handler : Except EngineExc (RouteOut Unit)),
      runRoute socket (.error (.apiError m sc expl)) handler
          = ⟨false, .ok (.httpError 503
              (some ("Cannot connect to podman socket at " ++ socket)))⟩ ∧
        (runRoute socket (.ok ()) handler).handlerCalled = true := by
  intro socket m sc expl handler
  exact ⟨rfl, rfl⟩

/-- C10: on the pull route a registry login call is made if and only if
username and password are both supplied and non-empty; when they are not,
no login happens and the pull is forwarded with a null auth_config, and
when they are, the login and the auth_config carry those credentials. -/
theorem C10_pull_login_iff_credentials :
    ∀ (repo tag : String) (registry username password : Option String)
      (res : Except EngineExc Unit),
      ((pull_image repo tag registry username password res).loginCall.isSome
          = (truthyStr username && truthyStr password)) ∧
        ((pull_image repo tag registry username password res).loginCall ≠ none ↔
          (∃ u, username = some u ∧ u ≠ "") ∧
            (∃ p, password = some p ∧ p ≠ "")) ∧
        ((pull_image repo tag registry username password res).loginCall = none →
          (pull_image repo tag registry username password res).pullAuth = none) ∧
        ((pull_image repo tag registry username password res).loginCall
          = (pull_image repo tag registry username password res).pullAuth.map
              (fun q => (q.1, q.2, registry))) := by
  intro repo tag registry username password res
  cases username with
  | none => simp [pull_image, truthyStr]
  | some u =>
    cases password with
    | none => simp [pull_image, truthyStr]
    | some p =>
      by_cases hu : u = "" <;> by_cases hp : p = "" <;>
        simp [pull_image, truthyStr, hu, hp]

end Vessel
